import Mathlib

/-!
Verification development for the MindWell mental-wellness client.

The definitions below are a shallow embedding of the logic in
`constants.tsx` and `types.ts`: the mood data model, the chart value
mapping, the recommendation generator with its deterministic fallback
table, the mood classification adapters, the emotion statistics
aggregation, and the session state transitions (mood entries, distress
latch, chat).  External generative-model calls are modelled by passing
the remote outcome (success payload or failure) as an explicit argument;
the wall clock is modelled by passing the current timestamp as a `Nat`.

JavaScript semantics that matter here and are embedded faithfully:
numeric `x || d` yields `d` when `x` is `0` (zero is falsy); string
`s || d` yields `d` when `s` is the empty string; object keys iterate in
insertion order for non-numeric string keys; `Array.prototype.sort` is
stable.  The percentage `Math.round((count / total) * 100)` is modelled
by an exact integer emulation of its binary64 evaluation: correctly
rounded division, then correctly rounded multiplication by the exactly
representable 100 (round to nearest, ties to even, with the IEEE
subnormal threshold), then `Math.round` as the closest integer with
ties toward positive infinity.  This reproduces the double-rounding
artifacts of the source, e.g. `(23/40)*100 = 57.49999999999999` rounds
to `57` where exact rational round-half-up would give `58`.
-/

namespace MindWell

/-- The nine-member closed mood enumeration from `types.ts`. -/
inductive Mood where
  | Happy
  | Sad
  | Neutral
  | Anxious
  | Calm
  | Excited
  | Tired
  | Angry
  | Content
deriving DecidableEq

/-- Serialization of a mood, matching the string enum of the source. -/
def moodName : Mood → String
  | .Happy => "Happy"
  | .Sad => "Sad"
  | .Neutral => "Neutral"
  | .Anxious => "Anxious"
  | .Calm => "Calm"
  | .Excited => "Excited"
  | .Tired => "Tired"
  | .Angry => "Angry"
  | .Content => "Content"

/-- The value of `toLowerCase()` on each of the nine mood strings; the
image adapter builds its notes from `resultJson.mood.toLowerCase()`, and
`resultJson.mood` always holds one of these nine strings. -/
def moodNameLower : Mood → String
  | .Happy => "happy"
  | .Sad => "sad"
  | .Neutral => "neutral"
  | .Anxious => "anxious"
  | .Calm => "calm"
  | .Excited => "excited"
  | .Tired => "tired"
  | .Angry => "angry"
  | .Content => "content"

/-- Source modality of a mood entry, from `types.ts`. -/
inductive EntrySource where
  | Journal
  | Voice
  | Facial
deriving DecidableEq

/-- One recorded mood observation (`MoodEntry` in `types.ts`); dates are
modelled as natural-number timestamps. -/
structure MoodEntry where
  id : String
  mood : Mood
  emoji : String
  date : Nat
  source : EntrySource
  notes : Option String
deriving DecidableEq

/-- A music playlist suggestion (`SpotifyPlaylist` in `types.ts`). -/
structure SpotifyPlaylist where
  title : String
  description : String
deriving DecidableEq

/-- Video category from `types.ts`. -/
inductive VideoType where
  | Meditation
  | Funny
deriving DecidableEq

/-- A video suggestion (`YouTubeVideo` in `types.ts`). -/
structure YouTubeVideo where
  title : String
  type : VideoType
deriving DecidableEq

/-- A recommendation bundle (`Recommendations` in `types.ts`). -/
structure Recommendations where
  forMood : Mood
  breathing : List String
  journaling : List String
  music : List SpotifyPlaylist
  videos : List YouTubeVideo
deriving DecidableEq

/-! ## Trend chart value mapping (`moodToValue`, `MoodChart`) -/

/-- The record literal `mapping` inside `moodToValue` in the source. -/
def moodRecordValue : Mood → Nat
  | .Angry => 0
  | .Sad => 1
  | .Tired => 2
  | .Anxious => 3
  | .Neutral => 4
  | .Content => 5
  | .Calm => 6
  | .Excited => 7
  | .Happy => 8

/-- Embeds `return mapping[mood] || 4;` from the source.  JavaScript
`||` returns the right operand when the left is falsy, and the number
`0` is falsy, so a stored value of `0` is replaced by the default `4`. -/
def moodToValue (mood : Mood) : Nat :=
  if moodRecordValue mood = 0 then 4 else moodRecordValue mood

/-- One point of the chart series built by `MoodChart` (the
locale-formatted date label is display plumbing and is not modelled). -/
structure ChartPoint where
  moodValue : Nat
  mood : Mood
deriving DecidableEq

/-- The `chartData` mapping inside `MoodChart`: one point per entry in
input order, with `moodValue := moodToValue entry.mood`. -/
def chartData (data : List MoodEntry) : List ChartPoint :=
  data.map (fun e => { moodValue := moodToValue e.mood, mood := e.mood })

/-! ## Recommendation generator (`getRecommendations`) -/

/-- A reason the remote generative-model call can fail; all three are
handled by the same `catch` in the source. -/
inductive RemoteFailure where
  | transport
  | parse
  | schema
deriving DecidableEq

/-- The schema-shaped payload parsed from a successful recommendations
response (the `parsed` value in the source). -/
structure ParsedRecBundle where
  breathing : List String
  journaling : List String
  music : List SpotifyPlaylist
  videos : List YouTubeVideo
deriving DecidableEq

/-- The hardcoded `defaultRecommendations` constant from the source. -/
def defaultRecommendations : Recommendations :=
  { forMood := .Neutral
  , breathing :=
      [ "Take 5 deep breaths."
      , "Try box breathing: inhale 4s, hold 4s, exhale 4s, hold 4s."
      , "Focus on your breath for one minute." ]
  , journaling :=
      [ "What is one thing you are grateful for today?"
      , "Describe a small moment of joy you experienced."
      , "What is something you can let go of?" ]
  , music :=
      [ { title := "Acoustic Calm"
        , description := "Gentle instrumental guitar to soothe your mind." }
      , { title := "Lofi Beats"
        , description := "Relaxing hip hop beats for focus and chill." } ]
  , videos :=
      [ { title := "5-Minute Guided Meditation for Beginners", type := .Meditation }
      , { title := "Peaceful Forest Stream Sounds", type := .Meditation } ] }

/-- Embeds `latestEntry?.mood || 'Neutral'`: the last entry when the
history is non-empty, else `Neutral` (mood strings are never empty, so
the `||` default only fires on a missing entry). -/
def latestMoodOf (moodHistory : List MoodEntry) : Mood :=
  match moodHistory.getLast? with
  | some e => e.mood
  | none => Mood.Neutral

/-- The `switch (latestMood)` fallback block of `getRecommendations`:
spread the generic default, stamp `forMood`, then override `journaling`,
`music` and `videos` for the five special moods (`Happy` and `Excited`
share one block through case fall-through).  `breathing` is never
touched. -/
def recFallback (latestMood : Mood) : Recommendations :=
  let fallback := { defaultRecommendations with forMood := latestMood }
  match latestMood with
  | .Sad =>
      { fallback with
        journaling :=
          [ "What\x27s one small thing that could bring you comfort right now?"
          , "Write a letter to your sadness, what would you say?"
          , "Recall a memory that once made you happy." ]
      , music :=
          [ { title := "Hopeful Ambient"
            , description := "Gentle soundscapes to lift your spirits." }
          , { title := "Comforting Classics"
            , description := "Familiar, soothing classical pieces." } ]
      , videos :=
          [ { title := "10-Min Meditation for Sadness", type := .Meditation }
          , { title := "Guided Visualization: Your Safe Place", type := .Meditation } ] }
  | .Anxious =>
      { fallback with
        journaling :=
          [ "What is within my control right now?"
          , "List 5 things you can see, 4 you can touch, 3 you can hear."
          , "Write down your worries and then physically close the book on them." ]
      , music :=
          [ { title := "Binaural Beats for Anxiety"
            , description := "Frequencies designed to calm the mind." }
          , { title := "Nature Sounds: Rain on a Window"
            , description := "The soothing sound of gentle rain." } ]
      , videos :=
          [ { title := "Body Scan Meditation for Anxiety", type := .Meditation }
          , { title := "Guided Breathing for Panic Attacks", type := .Meditation } ] }
  | .Angry =>
      { fallback with
        journaling :=
          [ "What is the root cause of this anger?"
          , "Write down everything you want to scream, then tear up the paper."
          , "What is a productive action I can take with this energy?" ]
      , music :=
          [ { title := "Power Rock Anthems"
            , description := "High-energy tracks to release tension." }
          , { title := "Intense Classical"
            , description := "Dramatic orchestral pieces to match your intensity." } ]
      , videos :=
          [ { title := "Walking Meditation to Release Anger", type := .Meditation }
          , { title := "Try This When You Feel Angry (Guided Practice)", type := .Meditation } ] }
  | .Happy =>
      { fallback with
        journaling :=
          [ "What are three things that contributed to this feeling?"
          , "How can you share this positive energy with others?"
          , "Describe this feeling in as much detail as possible." ]
      , music :=
          [ { title := "Good Vibes Only"
            , description := "Upbeat pop and indie tracks to keep the energy high." }
          , { title := "Dance Party USA"
            , description := "Non-stop hits that make you want to move." } ]
      , videos :=
          [ { title := "Try Not to Laugh Challenge", type := .Funny }
          , { title := "Cute Animals Compilation", type := .Funny } ] }
  | .Excited =>
      { fallback with
        journaling :=
          [ "What are three things that contributed to this feeling?"
          , "How can you share this positive energy with others?"
          , "Describe this feeling in as much detail as possible." ]
      , music :=
          [ { title := "Good Vibes Only"
            , description := "Upbeat pop and indie tracks to keep the energy high." }
          , { title := "Dance Party USA"
            , description := "Non-stop hits that make you want to move." } ]
      , videos :=
          [ { title := "Try Not to Laugh Challenge", type := .Funny }
          , { title := "Cute Animals Compilation", type := .Funny } ] }
  | _ => fallback

/-- Embeds `getRecommendations`.  The remote call outcome is an explicit
argument: `Except.ok` carries the schema-validated parsed bundle and
`Except.error` any of the failure reasons collapsed by the single
`catch`.  On an empty history the function returns before the remote
call; on success it spreads the parsed bundle and stamps `forMood`; on
failure it returns the two-tier fallback. -/
def getRecommendations (moodHistory : List MoodEntry)
    (remote : Except RemoteFailure ParsedRecBundle) : Recommendations :=
  let latestMood := latestMoodOf moodHistory
  if moodHistory.length = 0 then
    defaultRecommendations
  else
    match remote with
    | .ok parsed =>
        { forMood := latestMood
        , breathing := parsed.breathing
        , journaling := parsed.journaling
        , music := parsed.music
        , videos := parsed.videos }
    | .error _ => recFallback latestMood

/-- Whether the control flow of `getRecommendations` reaches the
`ai.models.generateContent` call: the source returns the default bundle
before the `try` block when `moodHistory.length === 0`, and otherwise
always issues exactly one call. -/
def getRecommendationsMakesCall (moodHistory : List MoodEntry) : Bool :=
  if moodHistory.length = 0 then false else true

/-! ## Mood classification adapters (`analyzeTextMood`, `analyzeImageMood`) -/

/-- The classification triple returned by both adapters, and also the
schema-shaped payload of a successful text classification response (the
schema marks `emoji`, `mood` and `notes` required, constrains `mood` to
the nine-member enumeration, and types `emoji` and `notes` as plain
strings, so an empty string is a schema-valid emoji). -/
structure MoodResult where
  mood : Mood
  emoji : String
  notes : String
deriving DecidableEq

/-- Embeds `analyzeTextMood`.  The whole body sits in one `try`: a
successful, schema-valid response is returned as-is with no further
validation (`return resultJson as ...`), and every failure reason lands
in the `catch` that returns the fixed fallback triple. -/
def analyzeTextMood (text : String)
    (remote : Except RemoteFailure MoodResult) : MoodResult :=
  match text, remote with
  | _, .ok resultJson => resultJson
  | _, .error _ => { mood := .Neutral, emoji := "😐", notes := "Could not analyze mood." }

/-- The parsed payload of an image classification response before the
explicit field check in the source: the code reads `resultJson.mood` and
`resultJson.emoji` and treats a falsy value of either as a failure, so
both fields are modelled as possibly absent (`mood`, when present, is
one of the nine enumeration strings and hence never empty). -/
structure ImageParsed where
  mood : Option Mood
  emoji : Option String
deriving DecidableEq

/-- The truthiness test `resultJson.mood && resultJson.emoji` from the
source: `mood` is truthy iff present (its enum strings are non-empty),
and `emoji` is truthy iff present and not the empty string. -/
def imageFieldsTruthy (p : ImageParsed) : Bool :=
  p.mood.isSome && (match p.emoji with
    | some e => !(e = "")
    | none => false)

/-- Embeds `analyzeImageMood`: on a response whose `mood` and `emoji`
are both truthy it returns them with locally synthesized notes
`"Detected a <mood, lowercased> expression."`; otherwise (either field
falsy, or any transport/parse failure) it returns the image fallback
triple. -/
def analyzeImageMood (base64Image : String)
    (remote : Except RemoteFailure ImageParsed) : MoodResult :=
  match base64Image, remote with
  | _, .ok resultJson =>
      if imageFieldsTruthy resultJson then
        match resultJson.mood, resultJson.emoji with
        | some m, some e =>
            { mood := m
            , emoji := e
            , notes := "Detected a " ++ moodNameLower m ++ " expression." }
        | _, _ =>
            { mood := .Neutral, emoji := "😐"
            , notes := "Could not determine mood from image." }
      else
        { mood := .Neutral, emoji := "😐"
        , notes := "Could not determine mood from image." }
  | _, .error _ =>
      { mood := .Neutral, emoji := "😐"
      , notes := "Could not determine mood from image." }

/-! ## Session state (`App` component state and its update handlers) -/

/-- The pages of the app (`Page` in `types.ts`); only navigation targets
of the modelled handlers matter here. -/
inductive Page where
  | Splash
  | Welcome
  | SignIn
  | SignUp
  | Home
  | Journal
  | VoiceLog
  | MoodScan
  | MoodTracker
  | Recommendations
  | Safety
  | SupportChat
deriving DecidableEq

/-- Who sent a chat message. -/
inductive Sender where
  | user
  | ai
deriving DecidableEq

/-- One chat message (`ChatMessage` in `types.ts`). -/
structure ChatMessage where
  id : String
  text : String
  sender : Sender
deriving DecidableEq

/-- The state held by the `App` component: current page, user name,
mood history, the distress latch, and the chat state.  The session ref
`chatSessionRef.current` is modelled by the boolean `chatInitialized`
(`false` corresponds to the ref still being `null`). -/
structure AppState where
  currentPage : Page
  userName : String
  moodHistory : List MoodEntry
  highDistressAlert : Bool
  chatInitialized : Bool
  chatHistory : List ChatMessage
  isAiTyping : Bool
deriving DecidableEq

/-- The argument of `addMoodEntry` (`Omit<MoodEntry, 'id' | 'date'>`). -/
structure NewMoodEntry where
  mood : Mood
  emoji : String
  source : EntrySource
  notes : Option String
deriving DecidableEq

/-- The entry constructed inside `addMoodEntry`: the input fields plus a
generated id and the current date (both taken from the clock, passed
here as `now`). -/
def mkMoodEntry (e : NewMoodEntry) (now : Nat) : MoodEntry :=
  { id := toString now
  , mood := e.mood
  , emoji := e.emoji
  , date := now
  , source := e.source
  , notes := e.notes }

/-- The distress predicate: the inline check
`['Sad', 'Angry', 'Anxious'].includes(newEntry.mood)` in
`addMoodEntry`, named `isHighDistress` by the specification. -/
def isHighDistress (entry : MoodEntry) : Bool :=
  entry.mood = Mood.Sad ∨ entry.mood = Mood.Angry ∨ entry.mood = Mood.Anxious

/-- Embeds `addMoodEntry`: append the new entry to the history and,
when it is a high-distress one, latch the alert flag to `true` (the flag
is never written `false` here). -/
def addMoodEntry (s : AppState) (e : NewMoodEntry) (now : Nat) : AppState :=
  let newEntry := mkMoodEntry e now
  let s1 := { s with moodHistory := s.moodHistory ++ [newEntry] }
  if isHighDistress newEntry then { s1 with highDistressAlert := true } else s1

/-- Embeds `handleDismiss` in `SafetyScreen`: clear the distress latch
and navigate home. -/
def handleDismiss (s : AppState) : AppState :=
  { s with highDistressAlert := false, currentPage := Page.Home }

/-- Embeds `navigate`. -/
def navigate (s : AppState) (page : Page) : AppState :=
  { s with currentPage := page }

/-- Embeds `initializeChat` (named `initChat` here): when the session
ref is still null, create the session and seed the chat history with the
fixed greeting; otherwise do nothing. -/
def initChat (s : AppState) : AppState :=
  if s.chatInitialized then s
  else
    { s with
      chatInitialized := true
    , chatHistory :=
        [ { id := "init-1"
          , text := "Hello! I\x27m your MindWell assistant. How can I support you right now?"
          , sender := .ai } ] }

/-- Embeds `sendMessage` end to end (the resulting state after the
`finally` block).  When the chat session has never been initialized the
guard `if (!chatSessionRef.current) return;` makes the call a no-op.
Otherwise the user message is appended, the remote reply (or the canned
connection-trouble apology on failure) is appended, and the typing flag
ends up `false`. -/
def sendMessage (s : AppState) (message : String) (now : Nat)
    (remote : Except RemoteFailure String) : AppState :=
  if !s.chatInitialized then s
  else
    let userMsg : ChatMessage :=
      { id := "user-" ++ toString now, text := message, sender := .user }
    let s1 := { s with chatHistory := s.chatHistory ++ [userMsg], isAiTyping := true }
    match remote with
    | .ok text =>
        { s1 with
          chatHistory := s1.chatHistory ++
            [ { id := "ai-" ++ toString now, text := text.trim, sender := .ai } ]
        , isAiTyping := false }
    | .error _ =>
        { s1 with
          chatHistory := s1.chatHistory ++
            [ { id := "ai-" ++ toString now
              , text := "I\x27m having a little trouble connecting right now. Please try again in a moment."
              , sender := .ai } ]
        , isAiTyping := false }

/-! ## Emotion statistics (`emotionStats` in `MoodTrackerScreen`)

The JavaScript `reduce` builds a plain object keyed by mood name;
`Object.entries` then yields the keys in insertion order (mood names are
non-numeric strings).  The object is modelled as an association list
whose key order is insertion order.  The emoji lookup object is modelled
as a total function with the empty string standing for an absent key:
both the guard `!acc[entry.mood]` and the default lookup
`emojiMap[mood] || '😐'` treat `undefined` and `""` identically, so
the collapse is observation-preserving. -/

/-- One row of the emotion breakdown produced by `emotionStats`. -/
structure EmotionStat where
  mood : Mood
  count : Nat
  percentage : Nat
  emoji : String
deriving DecidableEq

/-- One step of the counting reduce:
`acc[entry.mood] = (acc[entry.mood] || 0) + 1`, with a fresh key
appended at the end (JavaScript object insertion order). -/
def bump (m : Mood) : List (Mood × Nat) → List (Mood × Nat)
  | [] => [(m, 1)]
  | (k, c) :: rest => if k = m then (k, c + 1) :: rest else (k, c) :: bump m rest

/-- Association-list lookup with default `0`, the read side of
`acc[mood] || 0`. -/
def lookupCount (m : Mood) : List (Mood × Nat) → Nat
  | [] => 0
  | (k, c) :: rest => if k = m then c else lookupCount m rest

/-- The counting reduce over the windowed data. -/
def moodCounts (data : List MoodEntry) : List (Mood × Nat) :=
  data.foldl (fun acc e => bump e.mood acc) []

/-- Fuel-driven floor of the base-2 logarithm: for `1 ≤ n ≤ fuel`,
`log2fuel fuel n` is the largest `l` with `2 ^ l ≤ n` (the argument at
least halves each step, so `n` itself is enough fuel). -/
def log2fuel : Nat → Nat → Nat
  | 0, _ => 0
  | fuel + 1, n => if 2 ≤ n then log2fuel fuel (n / 2) + 1 else 0

/-- Floor of the base-2 logarithm of a positive natural. -/
def natLog2 (n : Nat) : Nat := log2fuel n n

/-- Fuel-driven search for the least `k` with `b ≤ a * 2 ^ k` (for
`1 ≤ a`); fuel `b` suffices because `a * 2 ^ b ≥ 2 ^ b > b`. -/
def scaleUpFuel : Nat → Nat → Nat → Nat
  | 0, _, _ => 0
  | fuel + 1, a, b => if b ≤ a then 0 else scaleUpFuel fuel (2 * a) b + 1

/-- Round the quotient `n / d` to the nearest integer, ties to even —
the IEEE 754 round-to-nearest rounding of a nonnegative quotient. -/
def rneNat (n d : Nat) : Nat :=
  let q := n / d
  let r := n % d
  if 2 * r < d then q
  else if d < 2 * r then q + 1
  else if q % 2 = 0 then q else q + 1

/-- The floor of the base-2 logarithm of `a / b` for positive `a`, `b`:
`natLog2 ⌊a/b⌋` when `a/b ≥ 1`, and `-k` with `k` the least exponent
satisfying `b ≤ a * 2 ^ k` when `a/b < 1` (then `2^(-k) ≤ a/b <
2^(1-k)`).  For `a = 0` the result is `0`: the exponent attached to the
value zero is irrelevant because a zero numerator rounds to the
mantissa `0` at every scale. -/
def ratILog2 (a b : Nat) : Int :=
  if a = 0 then 0
  else if b ≤ a then (natLog2 (a / b) : Int) else -(scaleUpFuel b a b : Int)

/-- The exponent `t` of the unit in the last place of the binary64
number nearest to `a / b`: with `e = ⌊log2 (a/b)⌋`, a normal number
(`e ≥ -1022`) has ulp `2^(e-52)` and a subnormal has ulp `2^-1074`.
Overflow to infinity is not modelled; in the percentage pipeline every
quotient is at most about 100, far below the overflow threshold. -/
def flScaleExp (a b : Nat) : Int :=
  let e := ratILog2 a b
  if -1022 ≤ e then e - 52 else -1074

/-- The mantissa of the binary64 number nearest to `a / b`: the
quotient rescaled by the ulp `2 ^ flScaleExp a b` and rounded to
nearest, ties to even.  The binary64 number nearest to `a / b` is
`flMantissa a b * 2 ^ flScaleExp a b` (a carry into the next binade
yields a mantissa of `2^53`, which denotes the same value as mantissa
`2^52` one binade up). -/
def flMantissa (a b : Nat) : Nat :=
  let t := flScaleExp a b
  if 0 ≤ t then rneNat a (b * 2 ^ t.toNat) else rneNat (a * 2 ^ (-t).toNat) b

/-- The exact value of the JavaScript expression
`Math.round((count / total) * 100)` under binary64 arithmetic:
`count / total` is the correctly rounded double quotient `m1 * 2^t1`
(`count` and `total` are array counts, far below `2^53`, so they are
exact doubles); multiplying by the exact double `100` and rounding
correctly gives `m2 * 2^t2`; `Math.round` then returns the closest
integer with ties toward positive infinity, which for the exact value
`x` of a double is `⌊x + 1/2⌋` — computed below in integer arithmetic
(for `t2 ≥ 0` the value is already an integer). -/
def roundPct (count total : Nat) : Nat :=
  let t1 := flScaleExp count total
  let m1 := flMantissa count total
  let a2 := if 0 ≤ t1 then 100 * m1 * 2 ^ t1.toNat else 100 * m1
  let b2 := if 0 ≤ t1 then 1 else 2 ^ (-t1).toNat
  let t2 := flScaleExp a2 b2
  let m2 := flMantissa a2 b2
  if 0 ≤ t2 then m2 * 2 ^ t2.toNat
  else (2 * m2 + 2 ^ (-t2).toNat) / 2 ^ ((-t2).toNat + 1)

/-- The emoji-map reduce over the full history:
`if (!acc[entry.mood]) { acc[entry.mood] = entry.emoji }`, writing only
when the stored value is still falsy (absent or empty). -/
def emojiMapFold : List MoodEntry → (Mood → String) → (Mood → String)
  | [], acc => acc
  | e :: rest, acc =>
      emojiMapFold rest
        (if acc e.mood = "" then (fun m => if m = e.mood then e.emoji else acc m) else acc)

/-- The fully reduced emoji lookup with its default:
`emojiMap[mood] || '😐'`. -/
def emojiFor (moodHistory : List MoodEntry) (m : Mood) : String :=
  let v := emojiMapFold moodHistory (fun _ => "") m
  if v = "" then "😐" else v

/-- Stable insertion of one row into a list sorted by descending count:
an inserted row goes in front of the first row whose count does not
exceed its own, so rows inserted earlier stay in front of equal-count
rows inserted later. -/
def insertByCount (x : EmotionStat) : List EmotionStat → List EmotionStat
  | [] => [x]
  | y :: ys => if y.count ≤ x.count then x :: y :: ys else y :: insertByCount x ys

/-- Stable sort by descending count.  `Array.prototype.sort` with the
comparator `(a, b) => b.count - a.count` is required to be stable, and
any two stable sorts under the same preorder agree, so this insertion
sort computes exactly the order the source produces. -/
def sortByCountDesc : List EmotionStat → List EmotionStat
  | [] => []
  | x :: xs => insertByCount x (sortByCountDesc xs)

/-- Embeds the `emotionStats` memo of `StatsAndChartCard`: empty data
short-circuits to an empty list; otherwise count per mood over the
windowed `data`, compute rounded percentages against `data.length`,
resolve each mood's emoji from the full unfiltered `moodHistory`, and
sort by descending count. -/
def emotionStats (data : List MoodEntry) (moodHistory : List MoodEntry) :
    List EmotionStat :=
  if data.length = 0 then []
  else
    let counts := moodCounts data
    let total := data.length
    sortByCountDesc
      (counts.map (fun p =>
        { mood := p.1
        , count := p.2
        , percentage := roundPct p.2 total
        , emoji := emojiFor moodHistory p.1 }))

/-- Reference recursion for the emoji resolution: the emoji of the first
occurrence of the mood whose emoji is non-empty, defaulting to the
neutral face. -/
def firstTruthyEmoji (m : Mood) : List MoodEntry → String
  | [] => "😐"
  | e :: rest => if e.mood = m ∧ e.emoji ≠ "" then e.emoji else firstTruthyEmoji m rest

/-- Reference recursion for occurrence counting. -/
def countMood (m : Mood) : List MoodEntry → Nat
  | [] => 0
  | e :: rest => (if e.mood = m then 1 else 0) + countMood m rest

/-! ## Helper lemmas about the counting reduce -/

theorem lookupCount_bump_self (m : Mood) (l : List (Mood × Nat)) :
    lookupCount m (bump m l) = lookupCount m l + 1 := by
  induction l with
  | nil => simp [bump, lookupCount]
  | cons p rest ih =>
      obtain ⟨k, c⟩ := p
      by_cases hk : k = m
      · subst hk
        simp [bump, lookupCount]
      · simp [bump, lookupCount, hk, ih]

theorem lookupCount_bump_ne (k m : Mood) (hkm : k ≠ m) (l : List (Mood × Nat)) :
    lookupCount k (bump m l) = lookupCount k l := by
  induction l with
  | nil => simp [bump, lookupCount, Ne.symm hkm]
  | cons p rest ih =>
      obtain ⟨k1, c⟩ := p
      by_cases h1 : k1 = m
      · subst h1
        simp [bump, lookupCount, Ne.symm hkm]
      · simp only [bump, if_neg h1]
        by_cases h2 : k1 = k
        · subst h2
          simp [lookupCount]
        · simp [lookupCount, h2, ih]

theorem sum_bump (m : Mood) (l : List (Mood × Nat)) :
    ((bump m l).map Prod.snd).sum = (l.map Prod.snd).sum + 1 := by
  induction l with
  | nil => simp [bump]
  | cons p rest ih =>
      obtain ⟨k, c⟩ := p
      by_cases hk : k = m
      · rw [show bump m ((k, c) :: rest) = (k, c + 1) :: rest by simp [bump, hk]]
        simp only [List.map_cons, List.sum_cons]
        omega
      · rw [show bump m ((k, c) :: rest) = (k, c) :: bump m rest by simp [bump, hk]]
        simp only [List.map_cons, List.sum_cons, ih]
        omega

theorem keys_bump (m : Mood) (l : List (Mood × Nat)) :
    (bump m l).map Prod.fst =
      if m ∈ l.map Prod.fst then l.map Prod.fst else l.map Prod.fst ++ [m] := by
  induction l with
  | nil => simp [bump]
  | cons p rest ih =>
      obtain ⟨k, c⟩ := p
      by_cases hk : k = m
      · subst hk
        simp [bump]
      · by_cases hmem : m ∈ rest.map Prod.fst
        · simp [bump, hk, ih, hmem, Ne.symm hk]
        · simp [bump, hk, ih, hmem, Ne.symm hk]

theorem nodup_keys_bump (m : Mood) (l : List (Mood × Nat))
    (h : (l.map Prod.fst).Nodup) : ((bump m l).map Prod.fst).Nodup := by
  rw [keys_bump]
  by_cases hmem : m ∈ l.map Prod.fst
  · simpa [hmem] using h
  · simp only [if_neg hmem]
    simp [List.nodup_append, h, hmem]

theorem pos_bump (m : Mood) (l : List (Mood × Nat))
    (h : ∀ p ∈ l, 0 < p.2) : ∀ p ∈ bump m l, 0 < p.2 := by
  induction l with
  | nil =>
      intro p hp
      simp [bump] at hp
      simp [hp]
  | cons q rest ih =>
      obtain ⟨k, c⟩ := q
      intro p hp
      by_cases hk : k = m
      · subst hk
        simp only [bump, if_pos rfl] at hp
        rcases List.mem_cons.mp hp with h1 | h1
        · subst h1; simp
        · exact h p (List.mem_cons_of_mem _ h1)
      · simp only [bump, if_neg hk] at hp
        rcases List.mem_cons.mp hp with h1 | h1
        · subst h1
          exact h (k, c) (List.mem_cons_self _ _)
        · exact ih (fun q hq => h q (List.mem_cons_of_mem _ hq)) p h1

theorem lookupCount_eq_of_mem (l : List (Mood × Nat)) (k : Mood) (c : Nat)
    (hnd : (l.map Prod.fst).Nodup) (hm : (k, c) ∈ l) : lookupCount k l = c := by
  induction l with
  | nil => simp at hm
  | cons p rest ih =>
      obtain ⟨k1, c1⟩ := p
      simp only [List.map_cons, List.nodup_cons] at hnd
      rcases List.mem_cons.mp hm with h1 | h1
      · injection h1 with hk hc
        subst hk; subst hc
        simp [lookupCount]
      · have hk1 : k1 ≠ k := by
          intro h
          subst h
          exact hnd.1 (List.mem_map.mpr ⟨(k1, c), h1, rfl⟩)
        simp [lookupCount, hk1, ih hnd.2 h1]

theorem lookupCount_foldl (l : List MoodEntry) :
    ∀ (acc : List (Mood × Nat)) (m : Mood),
      lookupCount m (l.foldl (fun a e => bump e.mood a) acc) =
        lookupCount m acc + countMood m l := by
  induction l with
  | nil => intro acc m; simp [countMood]
  | cons e rest ih =>
      intro acc m
      simp only [List.foldl_cons, countMood]
      rw [ih]
      by_cases h : e.mood = m
      · subst h
        rw [lookupCount_bump_self, if_pos rfl]
        omega
      · rw [lookupCount_bump_ne m e.mood (Ne.symm h), if_neg h]
        omega

theorem sum_foldl (l : List MoodEntry) :
    ∀ acc : List (Mood × Nat),
      ((l.foldl (fun a e => bump e.mood a) acc).map Prod.snd).sum =
        (acc.map Prod.snd).sum + l.length := by
  induction l with
  | nil => intro acc; simp
  | cons e rest ih =>
      intro acc
      simp only [List.foldl_cons, List.length_cons]
      rw [ih, sum_bump]
      omega

theorem nodup_keys_foldl (l : List MoodEntry) :
    ∀ acc : List (Mood × Nat), (acc.map Prod.fst).Nodup →
      ((l.foldl (fun a e => bump e.mood a) acc).map Prod.fst).Nodup := by
  induction l with
  | nil => intro acc h; simpa using h
  | cons e rest ih =>
      intro acc h
      exact ih _ (nodup_keys_bump e.mood acc h)

theorem pos_foldl (l : List MoodEntry) :
    ∀ acc : List (Mood × Nat), (∀ p ∈ acc, 0 < p.2) →
      ∀ p ∈ l.foldl (fun a e => bump e.mood a) acc, 0 < p.2 := by
  induction l with
  | nil => intro acc h; simpa using h
  | cons e rest ih =>
      intro acc h
      exact ih _ (pos_bump e.mood acc h)

theorem mem_moodCounts (data : List MoodEntry) (p : Mood × Nat)
    (hp : p ∈ moodCounts data) : p.2 = countMood p.1 data ∧ 0 < p.2 := by
  obtain ⟨k, c⟩ := p
  have hnd : ((moodCounts data).map Prod.fst).Nodup :=
    nodup_keys_foldl data [] (by simp)
  have hlook : lookupCount k (moodCounts data) = c :=
    lookupCount_eq_of_mem _ k c hnd hp
  have hcount : lookupCount k (moodCounts data) = countMood k data := by
    have := lookupCount_foldl data [] k
    simpa [moodCounts, lookupCount] using this
  refine ⟨by rw [← hlook, hcount], ?_⟩
  exact pos_foldl data [] (by simp) (k, c) hp

theorem countMood_le_length (m : Mood) (l : List MoodEntry) :
    countMood m l ≤ l.length := by
  induction l with
  | nil => simp [countMood]
  | cons e rest ih =>
      simp only [countMood, List.length_cons]
      by_cases h : e.mood = m <;> simp [h] <;> omega

theorem lookupCount_pos_mem (m : Mood) (l : List (Mood × Nat))
    (h : lookupCount m l ≠ 0) : ∃ cc, (m, cc) ∈ l := by
  induction l with
  | nil => simp [lookupCount] at h
  | cons p rest ih =>
      obtain ⟨k, c⟩ := p
      by_cases hk : k = m
      · subst hk
        exact ⟨c, List.mem_cons_self _ _⟩
      · simp only [lookupCount, if_neg hk] at h
        obtain ⟨cc, hcc⟩ := ih h
        exact ⟨cc, List.mem_cons_of_mem _ hcc⟩

theorem mem_countMood_pos (m : Mood) (l : List MoodEntry)
    (h : m ∈ l.map (fun e => e.mood)) : 0 < countMood m l := by
  induction l with
  | nil => simp at h
  | cons e rest ih =>
      by_cases he : e.mood = m
      · simp [countMood, he]
      · simp only [List.map_cons, List.mem_cons] at h
        rcases h with h | h
        · exact absurd h.symm he
        · have := ih h
          simp only [countMood, if_neg he]
          omega

theorem countMood_pos_mem (m : Mood) (l : List MoodEntry)
    (h : 0 < countMood m l) : m ∈ l.map (fun e => e.mood) := by
  induction l with
  | nil => simp [countMood] at h
  | cons e rest ih =>
      by_cases he : e.mood = m
      · simp [he]
      · simp only [countMood, if_neg he, Nat.zero_add] at h
        simp [ih h]

theorem log2fuel_lower : ∀ (fuel n : Nat), 1 ≤ n → 2 ^ log2fuel fuel n ≤ n := by
  intro fuel
  induction fuel with
  | zero =>
      intro n h
      simpa [log2fuel] using h
  | succ fuel ih =>
      intro n h
      simp only [log2fuel]
      by_cases h2 : 2 ≤ n
      · rw [if_pos h2]
        have hrec := ih (n / 2) (by omega)
        rw [pow_succ]
        omega
      · rw [if_neg h2]
        simpa using h

theorem natLog2_le_six (n : Nat) (h : n ≤ 100) : natLog2 n ≤ 6 := by
  rcases Nat.eq_zero_or_pos n with h0 | h0
  · subst h0
    decide
  · have hl : 2 ^ natLog2 n ≤ n := by
      simpa [natLog2] using log2fuel_lower n n h0
    by_contra hc
    push_neg at hc
    have h7 : (2 : Nat) ^ 7 ≤ 2 ^ natLog2 n := Nat.pow_le_pow_right (by omega) (by omega)
    have h128 : (128 : Nat) ≤ 2 ^ natLog2 n := by
      calc (128 : Nat) = 2 ^ 7 := by norm_num
        _ ≤ 2 ^ natLog2 n := h7
    omega

theorem rneNat_le (n d : Nat) (_hd : 0 < d) : 2 * rneNat n d * d ≤ 2 * n + d := by
  have hdm := Nat.div_add_mod n d
  have hq : 2 * (n / d) * d ≤ 2 * n + d := by
    calc 2 * (n / d) * d = 2 * (d * (n / d)) := by ring
      _ ≤ 2 * (d * (n / d)) + (2 * (n % d) + d) := Nat.le_add_right _ _
      _ = 2 * (d * (n / d) + n % d) + d := by ring
      _ = 2 * n + d := by rw [hdm]
  have hq1 : d ≤ 2 * (n % d) → 2 * (n / d + 1) * d ≤ 2 * n + d := by
    intro hr
    calc 2 * (n / d + 1) * d = 2 * (d * (n / d)) + 2 * d := by ring
      _ ≤ 2 * (d * (n / d)) + (2 * (n % d) + d) := by omega
      _ = 2 * (d * (n / d) + n % d) + d := by ring
      _ = 2 * n + d := by rw [hdm]
  simp only [rneNat]
  split
  · exact hq
  · rename_i h1
    split
    · rename_i h2
      exact hq1 (by omega)
    · rename_i h2
      split
      · exact hq
      · exact hq1 (by omega)

theorem ratILog2_nonpos (a b : Nat) (hab : a ≤ b) (hb : 0 < b) :
    ratILog2 a b ≤ 0 := by
  simp only [ratILog2]
  split
  · omega
  · split
    · rename_i ha hba
      have heq : a = b := le_antisymm hab hba
      subst heq
      rw [Nat.div_self (by omega)]
      have h1 : natLog2 1 = 0 := rfl
      rw [h1]
      omega
    · omega

theorem ratILog2_le_six (a b : Nat) (hb : 0 < b) (h : a ≤ 100 * b) :
    ratILog2 a b ≤ 6 := by
  simp only [ratILog2]
  split
  · omega
  · split
    · rename_i ha hba
      have hdiv : a / b ≤ 100 := by
        have h1 : a / b ≤ 100 * b / b := Nat.div_le_div_right h
        rwa [Nat.mul_div_cancel 100 hb] at h1
      have h2 := natLog2_le_six (a / b) hdiv
      omega
    · omega

theorem flScaleExp_le (a b : Nat) (k : Int) (hk : -1022 ≤ k)
    (h : ratILog2 a b ≤ k) : flScaleExp a b ≤ k - 52 := by
  simp only [flScaleExp]
  split <;> omega

theorem flMantissa_of_neg (a b : Nat) (h : ¬(0 ≤ flScaleExp a b)) :
    flMantissa a b = rneNat (a * 2 ^ (-flScaleExp a b).toNat) b := by
  simp only [flMantissa]
  rw [if_neg h]

theorem two_mul_flMantissa_le (a b K : Nat) (hab : a ≤ K * b) (hb : 0 < b)
    (hneg : ¬(0 ≤ flScaleExp a b)) :
    2 * flMantissa a b ≤ 2 * K * 2 ^ (-flScaleExp a b).toNat + 1 := by
  have hb1 : 2 * flMantissa a b * b ≤ 2 * (a * 2 ^ (-flScaleExp a b).toNat) + b := by
    rw [flMantissa_of_neg a b hneg]
    exact rneNat_le _ _ hb
  have hcp : a * 2 ^ (-flScaleExp a b).toNat ≤ K * b * 2 ^ (-flScaleExp a b).toNat :=
    Nat.mul_le_mul_right _ hab
  have hstep : 2 * flMantissa a b * b ≤ (2 * K * 2 ^ (-flScaleExp a b).toNat + 1) * b := by
    calc 2 * flMantissa a b * b
        ≤ 2 * (a * 2 ^ (-flScaleExp a b).toNat) + b := hb1
      _ ≤ 2 * (K * b * 2 ^ (-flScaleExp a b).toNat) + b := by omega
      _ = (2 * K * 2 ^ (-flScaleExp a b).toNat + 1) * b := by ring
  exact Nat.le_of_mul_le_mul_right hstep hb

theorem roundPct_le_100 (c tot : Nat) (hc : c ≤ tot) (htot : 0 < tot) :
    roundPct c tot ≤ 100 := by
  have he1 : ratILog2 c tot ≤ 0 := ratILog2_nonpos c tot hc htot
  have ht1 : flScaleExp c tot ≤ -52 := by
    have h := flScaleExp_le c tot 0 (by omega) he1
    omega
  have hnt1 : ¬(0 ≤ flScaleExp c tot) := by omega
  have hm1le : flMantissa c tot ≤ 2 ^ (-flScaleExp c tot).toNat := by
    have h := two_mul_flMantissa_le c tot 1 (by omega) htot hnt1
    omega
  have hP1 : 0 < 2 ^ (-flScaleExp c tot).toNat := Nat.pow_pos (by omega)
  have ha2 : 100 * flMantissa c tot ≤ 100 * 2 ^ (-flScaleExp c tot).toNat :=
    Nat.mul_le_mul_left _ hm1le
  have he2 : ratILog2 (100 * flMantissa c tot) (2 ^ (-flScaleExp c tot).toNat) ≤ 6 :=
    ratILog2_le_six _ _ hP1 ha2
  have ht2 : flScaleExp (100 * flMantissa c tot) (2 ^ (-flScaleExp c tot).toNat) ≤ -46 := by
    have h := flScaleExp_le _ _ 6 (by omega) he2
    omega
  have hnt2 : ¬(0 ≤ flScaleExp (100 * flMantissa c tot) (2 ^ (-flScaleExp c tot).toNat)) := by
    omega
  have hm2 : 2 * flMantissa (100 * flMantissa c tot) (2 ^ (-flScaleExp c tot).toNat) ≤
      2 * 100 *
        2 ^ (-flScaleExp (100 * flMantissa c tot) (2 ^ (-flScaleExp c tot).toNat)).toNat + 1 :=
    two_mul_flMantissa_le _ _ 100 ha2 hP1 hnt2
  simp only [roundPct, if_neg hnt1, if_neg hnt2]
  set u2 := (-flScaleExp (100 * flMantissa c tot) (2 ^ (-flScaleExp c tot).toNat)).toNat
    with hu2def
  have hu2 : 46 ≤ u2 := by omega
  have hPu2 : (2 : Nat) ≤ 2 ^ u2 := by
    calc (2 : Nat) = 2 ^ 1 := by norm_num
      _ ≤ 2 ^ u2 := Nat.pow_le_pow_right (by omega) (by omega)
  have hfinal : 2 * flMantissa (100 * flMantissa c tot) (2 ^ (-flScaleExp c tot).toNat) +
      2 ^ u2 < 101 * 2 ^ (u2 + 1) := by
    rw [pow_succ]
    omega
  have hdiv := (Nat.div_lt_iff_lt_mul (Nat.pow_pos (by omega))).mpr hfinal
  omega

/-! ## Helper lemmas about the emoji lookup -/

theorem emojiMapFold_stable (hist : List MoodEntry) :
    ∀ (acc : Mood → String) (m : Mood), acc m ≠ "" →
      emojiMapFold hist acc m = acc m := by
  induction hist with
  | nil => intro acc m _; rfl
  | cons e rest ih =>
      intro acc m h
      simp only [emojiMapFold]
      by_cases he : acc e.mood = ""
      · rw [if_pos he]
        have hm : ¬(m = e.mood) := by
          intro hh
          exact h (hh ▸ he)
        have hacc : (fun m' => if m' = e.mood then e.emoji else acc m') m ≠ "" := by
          show (if m = e.mood then e.emoji else acc m) ≠ ""
          rw [if_neg hm]
          exact h
        rw [ih _ m hacc]
        show (if m = e.mood then e.emoji else acc m) = acc m
        rw [if_neg hm]
      · rw [if_neg he]
        exact ih acc m h

theorem emojiMapFold_firstTruthy (hist : List MoodEntry) :
    ∀ (acc : Mood → String) (m : Mood), acc m = "" →
      (if emojiMapFold hist acc m = "" then "😐" else emojiMapFold hist acc m) =
        firstTruthyEmoji m hist := by
  induction hist with
  | nil =>
      intro acc m h
      simp [emojiMapFold, firstTruthyEmoji, h]
  | cons e rest ih =>
      intro acc m h
      simp only [emojiMapFold, firstTruthyEmoji]
      by_cases he : acc e.mood = ""
      · rw [if_pos he]
        by_cases hm : e.mood = m
        · subst hm
          by_cases hemoji : e.emoji = ""
          · have hacc : (fun m' => if m' = e.mood then e.emoji else acc m') e.mood = "" := by
              show (if e.mood = e.mood then e.emoji else acc e.mood) = ""
              rw [if_pos rfl]
              exact hemoji
            rw [ih _ e.mood hacc]
            have hcond : ¬(e.mood = e.mood ∧ e.emoji ≠ "") := by
              intro hh
              exact hh.2 hemoji
            rw [if_neg hcond]
          · have hacc : (fun m' => if m' = e.mood then e.emoji else acc m') e.mood ≠ "" := by
              show (if e.mood = e.mood then e.emoji else acc e.mood) ≠ ""
              rw [if_pos rfl]
              exact hemoji
            rw [emojiMapFold_stable rest _ e.mood hacc]
            show (if (if e.mood = e.mood then e.emoji else acc e.mood) = "" then "😐"
                else (if e.mood = e.mood then e.emoji else acc e.mood)) =
              if e.mood = e.mood ∧ e.emoji ≠ "" then e.emoji else firstTruthyEmoji e.mood rest
            rw [if_pos rfl, if_neg hemoji, if_pos ⟨rfl, hemoji⟩]
        · have hacc : (fun m' => if m' = e.mood then e.emoji else acc m') m = "" := by
            show (if m = e.mood then e.emoji else acc m) = ""
            rw [if_neg (fun hh => hm (Eq.symm hh))]
            exact h
          rw [ih _ m hacc]
          have hcond : ¬(e.mood = m ∧ e.emoji ≠ "") := by
            intro hh
            exact hm hh.1
          rw [if_neg hcond]
      · rw [if_neg he]
        have hm : ¬(e.mood = m) := by
          intro hh
          exact he (hh ▸ h)
        rw [ih acc m h]
        have hcond : ¬(e.mood = m ∧ e.emoji ≠ "") := by
          intro hh
          exact hm hh.1
        rw [if_neg hcond]

theorem emojiFor_eq_firstTruthy (hist : List MoodEntry) (m : Mood) :
    emojiFor hist m = firstTruthyEmoji m hist := by
  unfold emojiFor
  exact emojiMapFold_firstTruthy hist (fun _ => "") m rfl

/-! ## Helper lemmas about the stable descending sort -/

theorem insertByCount_perm (x : EmotionStat) (l : List EmotionStat) :
    (insertByCount x l).Perm (x :: l) := by
  induction l with
  | nil => simp [insertByCount]
  | cons y ys ih =>
      simp only [insertByCount]
      by_cases h : y.count ≤ x.count
      · rw [if_pos h]
      · rw [if_neg h]
        exact (ih.cons y).trans (List.Perm.swap x y ys)

theorem sortByCountDesc_perm (l : List EmotionStat) :
    (sortByCountDesc l).Perm l := by
  induction l with
  | nil => simp [sortByCountDesc]
  | cons x xs ih =>
      exact (insertByCount_perm x (sortByCountDesc xs)).trans (ih.cons x)

theorem insertByCount_sorted (x : EmotionStat) (l : List EmotionStat)
    (h : l.Pairwise (fun a b => b.count ≤ a.count)) :
    (insertByCount x l).Pairwise (fun a b => b.count ≤ a.count) := by
  induction l with
  | nil => simp [insertByCount]
  | cons y ys ih =>
      obtain ⟨hy, hys⟩ := List.pairwise_cons.mp h
      simp only [insertByCount]
      by_cases hc : y.count ≤ x.count
      · rw [if_pos hc]
        refine List.pairwise_cons.mpr ⟨?_, h⟩
        intro b hb
        rcases List.mem_cons.mp hb with h1 | h1
        · subst h1; exact hc
        · exact le_trans (hy b h1) hc
      · rw [if_neg hc]
        refine List.pairwise_cons.mpr ⟨?_, ih hys⟩
        intro b hb
        have hb' : b ∈ x :: ys := (insertByCount_perm x ys).mem_iff.mp hb
        rcases List.mem_cons.mp hb' with h1 | h1
        · subst h1; omega
        · exact hy b h1

theorem sortByCountDesc_sorted (l : List EmotionStat) :
    (sortByCountDesc l).Pairwise (fun a b => b.count ≤ a.count) := by
  induction l with
  | nil => simp [sortByCountDesc]
  | cons x xs ih => exact insertByCount_sorted x _ ih

/-! ## Row-level description of `emotionStats` -/

theorem emotionStats_mem (data hist : List MoodEntry) :
    ∀ s ∈ emotionStats data hist,
      s.count = countMood s.mood data ∧ 0 < s.count ∧
      s.percentage = roundPct s.count data.length ∧
      s.emoji = firstTruthyEmoji s.mood hist := by
  intro s hs
  by_cases hd : data.length = 0
  · simp [emotionStats, hd] at hs
  · simp only [emotionStats, if_neg hd] at hs
    have hs' := (sortByCountDesc_perm _).mem_iff.mp hs
    obtain ⟨p, hp, hfp⟩ := List.mem_map.mp hs'
    obtain ⟨hc, hpos⟩ := mem_moodCounts data p hp
    subst hfp
    exact ⟨hc, hpos, rfl, emojiFor_eq_firstTruthy hist p.1⟩

theorem emotionStats_sum (data hist : List MoodEntry) :
    ((emotionStats data hist).map (fun s => s.count)).sum = data.length := by
  by_cases hd : data.length = 0
  · simp [emotionStats, hd]
  · simp only [emotionStats, if_neg hd]
    have hperm := ((sortByCountDesc_perm
      ((moodCounts data).map (fun p =>
        ({ mood := p.1, count := p.2, percentage := roundPct p.2 data.length
         , emoji := emojiFor hist p.1 } : EmotionStat)))).map (fun s => s.count))
    rw [hperm.sum_eq]
    rw [List.map_map]
    have : ((fun s : EmotionStat => s.count) ∘ (fun p : Mood × Nat =>
        ({ mood := p.1, count := p.2, percentage := roundPct p.2 data.length
         , emoji := emojiFor hist p.1 } : EmotionStat))) = Prod.snd := by
      funext p
      rfl
    rw [this]
    have := sum_foldl data []
    simpa [moodCounts] using this

theorem emotionStats_complete (data hist : List MoodEntry) (m : Mood)
    (h : m ∈ data.map (fun e => e.mood)) :
    ∃ s ∈ emotionStats data hist, s.mood = m := by
  have hne : data ≠ [] := by
    intro hh
    subst hh
    simp at h
  have hd : ¬(data.length = 0) := fun hh => hne (List.length_eq_zero.mp hh)
  have hpos : 0 < countMood m data := mem_countMood_pos m data h
  have hlook : lookupCount m (moodCounts data) = countMood m data := by
    have := lookupCount_foldl data [] m
    simpa [moodCounts, lookupCount] using this
  obtain ⟨cc, hcc⟩ := lookupCount_pos_mem m (moodCounts data) (by omega)
  refine ⟨{ mood := m, count := cc, percentage := roundPct cc data.length
          , emoji := emojiFor hist m }, ?_, rfl⟩
  simp only [emotionStats, if_neg hd]
  apply (sortByCountDesc_perm _).mem_iff.mpr
  exact List.mem_map.mpr ⟨(m, cc), hcc, rfl⟩

/-! ## Claim theorems -/

/-- C1: the spec fixes the trend scale at `Angry = 0`, `Happy = 8`, and
the code's own `mapping` literal stores `'Angry': 0`; but the source
returns `mapping[mood] || 4`, and in JavaScript `0 || 4` evaluates to
`4`, so an Angry entry is plotted at `4` (the Neutral position), not at
`0`.  Happy is plotted at `8` as claimed.  This theorem evaluates the
embedded code at the failing input. -/
theorem moodToValue_angry_is_four :
    moodRecordValue Mood.Angry = 0 ∧
    moodToValue Mood.Angry = 4 ∧
    moodToValue Mood.Happy = 8 ∧
    chartData
        [ { id := "a", mood := Mood.Angry, emoji := "😡", date := 0
          , source := .Facial, notes := none }
        , { id := "b", mood := Mood.Happy, emoji := "😊", date := 1
          , source := .Journal, notes := none } ] =
      [ { moodValue := 4, mood := Mood.Angry }
      , { moodValue := 8, mood := Mood.Happy } ] := by
  decide

/-- C2: for every non-empty history whose last entry has mood `Sad` and
every remote failure reason, `getRecommendations` returns the bundle
stamped `forMood = Sad` whose breathing list is the untouched generic
3-item default and whose journaling, music and videos are the
Sad-specific literal fallback arrays. -/
theorem getRecommendations_sad_failure (history : List MoodEntry)
    (lastE : MoodEntry) (f : RemoteFailure)
    (hlast : history.getLast? = some lastE)
    (hmood : lastE.mood = Mood.Sad) :
    getRecommendations history (.error f) =
      { forMood := Mood.Sad
      , breathing := defaultRecommendations.breathing
      , journaling :=
          [ "What\x27s one small thing that could bring you comfort right now?"
          , "Write a letter to your sadness, what would you say?"
          , "Recall a memory that once made you happy." ]
      , music :=
          [ { title := "Hopeful Ambient"
            , description := "Gentle soundscapes to lift your spirits." }
          , { title := "Comforting Classics"
            , description := "Familiar, soothing classical pieces." } ]
      , videos :=
          [ { title := "10-Min Meditation for Sadness", type := .Meditation }
          , { title := "Guided Visualization: Your Safe Place", type := .Meditation } ] } := by
  have hne : history ≠ [] := by
    intro h
    rw [h] at hlast
    simp at hlast
  have hlen : ¬(history.length = 0) := by
    intro h
    exact hne (List.length_eq_zero.mp h)
  have hlm : latestMoodOf history = Mood.Sad := by
    unfold latestMoodOf
    rw [hlast]
    exact hmood
  simp only [getRecommendations, if_neg hlen]
  rw [hlm]
  rfl

/-- C2 witness: evaluation at a concrete one-entry Sad history with a
transport failure. -/
theorem getRecommendations_sad_failure_witness :
    getRecommendations
        [{ id := "1", mood := Mood.Sad, emoji := "😢", date := 0
         , source := .Voice, notes := none }]
        (.error .transport) =
      { forMood := Mood.Sad
      , breathing := defaultRecommendations.breathing
      , journaling :=
          [ "What\x27s one small thing that could bring you comfort right now?"
          , "Write a letter to your sadness, what would you say?"
          , "Recall a memory that once made you happy." ]
      , music :=
          [ { title := "Hopeful Ambient"
            , description := "Gentle soundscapes to lift your spirits." }
          , { title := "Comforting Classics"
            , description := "Familiar, soothing classical pieces." } ]
      , videos :=
          [ { title := "10-Min Meditation for Sadness", type := .Meditation }
          , { title := "Guided Visualization: Your Safe Place", type := .Meditation } ] } :=
  getRecommendations_sad_failure
    [{ id := "1", mood := Mood.Sad, emoji := "😢", date := 0
     , source := .Voice, notes := none }]
    { id := "1", mood := Mood.Sad, emoji := "😢", date := 0
    , source := .Voice, notes := none }
    .transport (by decide) (by decide)

/-- C3 counterexample: the text adapter performs no validation on a
successful response (`return resultJson as ...`), and the schema types
`emoji` as a plain string, so a schema-valid success payload carrying an
empty emoji is returned unchanged; the returned emoji is empty, refuting
the clause that the returned emoji is non-empty in every case. -/
theorem analyzeTextMood_empty_emoji :
    analyzeTextMood "I feel fine"
        (.ok { mood := Mood.Happy, emoji := "", notes := "A calm day." }) =
      { mood := Mood.Happy, emoji := "", notes := "A calm day." } ∧
    (analyzeTextMood "I feel fine"
        (.ok { mood := Mood.Happy, emoji := "", notes := "A calm day." })).emoji = "" := by
  decide

/-- C3 (amended): `analyzeTextMood` never propagates an error (it is a
total function of the remote outcome); on any remote, parse or schema
failure it returns exactly the literal fallback triple, whose emoji is
non-empty; on success it returns the parsed triple unchanged; and in
every case the returned mood is drawn from the nine-member
enumeration. -/
theorem analyzeTextMood_contract (text : String) (f : RemoteFailure)
    (r : MoodResult) (out : Except RemoteFailure MoodResult) :
    analyzeTextMood text (.error f) =
      { mood := Mood.Neutral, emoji := "😐", notes := "Could not analyze mood." } ∧
    (analyzeTextMood text (.error f)).emoji ≠ "" ∧
    analyzeTextMood text (.ok r) = r ∧
    (analyzeTextMood text out).mood ∈
      [Mood.Happy, Mood.Sad, Mood.Neutral, Mood.Anxious, Mood.Calm,
       Mood.Excited, Mood.Tired, Mood.Angry, Mood.Content] := by
  refine ⟨rfl, ?_, rfl, ?_⟩
  · show ("😐" : String) ≠ ""
    decide
  · cases out with
    | ok r2 =>
        obtain ⟨m2, e2, n2⟩ := r2
        show m2 ∈ _
        cases m2 <;> decide
    | error f2 =>
        show Mood.Neutral ∈ _
        decide

/-- C4 counterexample: a parsed response in which both `mood` and
`emoji` are present but the emoji is the empty string.  The source
checks `resultJson.mood && resultJson.emoji`, and an empty string is
falsy in JavaScript, so the code returns the fallback triple instead of
the present mood and emoji — refuting the clause that whenever both
fields are present the parsed mood and emoji are returned. -/
theorem analyzeImageMood_present_empty_emoji :
    analyzeImageMood "img" (.ok { mood := some Mood.Happy, emoji := some "" }) =
      { mood := Mood.Neutral, emoji := "😐"
      , notes := "Could not determine mood from image." } := by
  decide

/-- C4 (amended): `analyzeImageMood` returns the literal image fallback
whenever `mood` is missing, `emoji` is missing or the empty string, or
any transport/parse failure occurs; when both fields are present and the
emoji is non-empty, it returns that mood and emoji with the locally
synthesized notes `"Detected a <mood, lowercased> expression."`. -/
theorem analyzeImageMood_contract (img : String) (f : RemoteFailure)
    (p : ImageParsed) (m : Mood) (e : String) :
    analyzeImageMood img (.error f) =
      { mood := Mood.Neutral, emoji := "😐"
      , notes := "Could not determine mood from image." } ∧
    (p.mood = none ∨ p.emoji = none ∨ p.emoji = some "" →
      analyzeImageMood img (.ok p) =
        { mood := Mood.Neutral, emoji := "😐"
        , notes := "Could not determine mood from image." }) ∧
    (e ≠ "" →
      analyzeImageMood img (.ok { mood := some m, emoji := some e }) =
        { mood := m, emoji := e
        , notes := "Detected a " ++ moodNameLower m ++ " expression." }) := by
  refine ⟨rfl, ?_, ?_⟩
  · intro h
    have ht : imageFieldsTruthy p = false := by
      obtain ⟨pm, pe⟩ := p
      rcases h with h | h | h <;> simp_all [imageFieldsTruthy]
    simp [analyzeImageMood, ht]
  · intro he
    have ht : imageFieldsTruthy { mood := some m, emoji := some e } = true := by
      simp [imageFieldsTruthy, he]
    simp [analyzeImageMood, ht]

/-- C4 witness: evaluation at a concrete present, non-empty payload. -/
theorem analyzeImageMood_contract_witness :
    analyzeImageMood "img" (.ok { mood := some Mood.Calm, emoji := some "🧘" }) =
      { mood := Mood.Calm, emoji := "🧘", notes := "Detected a calm expression." } :=
  ((analyzeImageMood_contract "img" .transport
      { mood := some Mood.Calm, emoji := some "🧘" } Mood.Calm "🧘").2.2) (by decide)

/-- C5 counterexample, two independent refutations of the claim as
stated.  First, the emoji clause: the emoji-map reduce writes only when
the stored value is falsy (`if (!acc[entry.mood])`), so a first
occurrence whose emoji is the empty string is overwritten by the next
occurrence; the reported emoji for Happy is the second occurrence's,
not the first occurrence's.  Second, the percentage clause: over 23
Happy entries out of 40, the exact value of `100 * count / total` is
`57.5`, whose nearest-integer rounding is `58` (conjunct three computes
that exact round-half-up), but the source evaluates
`Math.round((23/40)*100)` in binary64, where `(23/40)*100` is
`57.49999999999999`, and reports `57` (conjuncts two and four evaluate
the embedded pipeline). -/
theorem emotionStats_skips_empty_emoji :
    ([ { id := "0", mood := Mood.Happy, emoji := "", date := 0
       , source := .Journal, notes := none }
     , { id := "1", mood := Mood.Happy, emoji := "😄", date := 1
       , source := .Journal, notes := none } ] : List MoodEntry).head?.map
        (fun en => en.emoji) = some "" ∧
    (emotionStats
        [ { id := "0", mood := Mood.Happy, emoji := "", date := 0
          , source := .Journal, notes := none }
        , { id := "1", mood := Mood.Happy, emoji := "😄", date := 1
          , source := .Journal, notes := none } ]
        [ { id := "0", mood := Mood.Happy, emoji := "", date := 0
          , source := .Journal, notes := none }
        , { id := "1", mood := Mood.Happy, emoji := "😄", date := 1
          , source := .Journal, notes := none } ]).map (fun s => s.emoji) = ["😄"] ∧
    (200 * 23 + 40) / (2 * 40) = 58 ∧
    roundPct 23 40 = 57 ∧
    (emotionStats
        (List.replicate 23
            ({ id := "h", mood := Mood.Happy, emoji := "😊", date := 0
             , source := .Journal, notes := none } : MoodEntry) ++
         List.replicate 17
            ({ id := "s", mood := Mood.Sad, emoji := "😢", date := 1
             , source := .Voice, notes := none } : MoodEntry))
        (List.replicate 23
            ({ id := "h", mood := Mood.Happy, emoji := "😊", date := 0
             , source := .Journal, notes := none } : MoodEntry) ++
         List.replicate 17
            ({ id := "s", mood := Mood.Sad, emoji := "😢", date := 1
             , source := .Voice, notes := none } : MoodEntry))).map
      (fun s => (s.mood, s.count, s.percentage)) =
      [(Mood.Happy, 23, 57), (Mood.Sad, 17, 43)] := by
  decide

/-- C5 (amended): for every non-empty windowed list, each output row's
count is the number of occurrences of its mood in the windowed data,
its percentage is the binary64 evaluation of
`Math.round((count / total) * 100)` (which differs from exact
nearest-integer rounding when the double arithmetic lands just below a
half-integer, as at 23 of 40), and its emoji is the emoji of that
mood's first occurrence with a non-empty emoji in the full unfiltered
history (occurrences with an empty emoji are skipped; neutral face if
none); every mood occurring in the windowed data is reported by some
row; the output is sorted in descending order of count; and on
`[Happy, Happy, Sad]` it yields `[(Happy, 2, 67), (Sad, 1, 33)]`. -/
theorem emotionStats_rows_spec (data hist : List MoodEntry) (_hne : data ≠ []) :
    (∀ s ∈ emotionStats data hist,
        s.count = countMood s.mood data ∧
        s.percentage = roundPct s.count data.length ∧
        s.emoji = firstTruthyEmoji s.mood hist) ∧
    (∀ m ∈ data.map (fun e => e.mood), ∃ s ∈ emotionStats data hist, s.mood = m) ∧
    (emotionStats data hist).Pairwise (fun a b => b.count ≤ a.count) ∧
    (emotionStats
        [ { id := "1", mood := Mood.Happy, emoji := "😊", date := 1
          , source := .Journal, notes := none }
        , { id := "2", mood := Mood.Happy, emoji := "😊", date := 2
          , source := .Journal, notes := none }
        , { id := "3", mood := Mood.Sad, emoji := "😢", date := 3
          , source := .Voice, notes := none } ]
        [ { id := "1", mood := Mood.Happy, emoji := "😊", date := 1
          , source := .Journal, notes := none }
        , { id := "2", mood := Mood.Happy, emoji := "😊", date := 2
          , source := .Journal, notes := none }
        , { id := "3", mood := Mood.Sad, emoji := "😢", date := 3
          , source := .Voice, notes := none } ]).map
      (fun s => (s.mood, s.count, s.percentage)) =
      [(Mood.Happy, 2, 67), (Mood.Sad, 1, 33)] := by
  refine ⟨?_, ?_, ?_, by decide⟩
  · intro s hs
    obtain ⟨h1, _, h3, h4⟩ := emotionStats_mem data hist s hs
    exact ⟨h1, h3, h4⟩
  · intro m hm
    exact emotionStats_complete data hist m hm
  · by_cases hd : data.length = 0
    · simp [emotionStats, hd]
    · simp only [emotionStats, if_neg hd]
      exact sortByCountDesc_sorted _

/-- C5 witness: application at a concrete non-empty list, yielding the
concrete distribution of the `[Happy, Happy, Sad]` example. -/
theorem emotionStats_rows_spec_witness :
    (emotionStats
        [ { id := "1", mood := Mood.Happy, emoji := "😊", date := 1
          , source := .Journal, notes := none }
        , { id := "2", mood := Mood.Happy, emoji := "😊", date := 2
          , source := .Journal, notes := none }
        , { id := "3", mood := Mood.Sad, emoji := "😢", date := 3
          , source := .Voice, notes := none } ]
        [ { id := "1", mood := Mood.Happy, emoji := "😊", date := 1
          , source := .Journal, notes := none }
        , { id := "2", mood := Mood.Happy, emoji := "😊", date := 2
          , source := .Journal, notes := none }
        , { id := "3", mood := Mood.Sad, emoji := "😢", date := 3
          , source := .Voice, notes := none } ]).map
      (fun s => (s.mood, s.count, s.percentage)) =
      [(Mood.Happy, 2, 67), (Mood.Sad, 1, 33)] :=
  (emotionStats_rows_spec
    [{ id := "w", mood := Mood.Calm, emoji := "🧘", date := 0
     , source := .Journal, notes := none }] [] (by decide)).2.2.2

/-- C6: the distress predicate holds for exactly `Sad`, `Angry` and
`Anxious`; the latch, once `true`, stays `true` under every
`addMoodEntry` (distressing or not), is preserved by every other
modelled operation, and is cleared only by the dedicated dismiss
action. -/
theorem distress_latch_spec (s : AppState) (e : NewMoodEntry) (now : Nat)
    (msg : String) (r : Except RemoteFailure String) (p : Page) :
    (∀ entry : MoodEntry, isHighDistress entry = true ↔
        (entry.mood = Mood.Sad ∨ entry.mood = Mood.Angry ∨ entry.mood = Mood.Anxious)) ∧
    (s.highDistressAlert = true → (addMoodEntry s e now).highDistressAlert = true) ∧
    (handleDismiss s).highDistressAlert = false ∧
    (initChat s).highDistressAlert = s.highDistressAlert ∧
    (sendMessage s msg now r).highDistressAlert = s.highDistressAlert ∧
    (navigate s p).highDistressAlert = s.highDistressAlert := by
  refine ⟨?_, ?_, rfl, ?_, ?_, rfl⟩
  · intro entry
    simp [isHighDistress]
  · intro h
    simp only [addMoodEntry]
    split
    · rfl
    · exact h
  · simp only [initChat]
    split <;> rfl
  · simp only [sendMessage]
    split
    · rfl
    · cases r <;> rfl

/-- C6 witness: a latched state stays latched after adding a
non-distressing Calm entry. -/
theorem distress_latch_spec_witness :
    (addMoodEntry
        { currentPage := .Home, userName := "Alex", moodHistory := []
        , highDistressAlert := true, chatInitialized := false
        , chatHistory := [], isAiTyping := false }
        { mood := Mood.Calm, emoji := "🧘", source := .Journal, notes := none }
        7).highDistressAlert = true :=
  (distress_latch_spec
    { currentPage := .Home, userName := "Alex", moodHistory := []
    , highDistressAlert := true, chatInitialized := false
    , chatHistory := [], isAiTyping := false }
    { mood := Mood.Calm, emoji := "🧘", source := .Journal, notes := none }
    7 "m" (.ok "t") .Home).2.1 rfl

/-- C7: on the empty history `getRecommendations` returns exactly the
literal generic default bundle, whose `forMood` is `Neutral`, and the
control flow never reaches the remote call. -/
theorem getRecommendations_empty_default
    (remote : Except RemoteFailure ParsedRecBundle) :
    getRecommendations [] remote = defaultRecommendations ∧
    defaultRecommendations.forMood = Mood.Neutral ∧
    getRecommendationsMakesCall [] = false :=
  ⟨rfl, rfl, rfl⟩

/-- C8: `addMoodEntry` appends exactly one entry at the end, leaves
every previously recorded entry unchanged, no other modelled operation
touches the history, and when the existing timestamps are non-decreasing
and the clock reads at least every recorded timestamp, the extended
history's timestamps are again non-decreasing in insertion order. -/
theorem moodHistory_append_only (s : AppState) (e : NewMoodEntry) (now : Nat)
    (msg : String) (r : Except RemoteFailure String) (p : Page) :
    (addMoodEntry s e now).moodHistory = s.moodHistory ++ [mkMoodEntry e now] ∧
    (addMoodEntry s e now).moodHistory.length = s.moodHistory.length + 1 ∧
    (∀ i, i < s.moodHistory.length →
        (addMoodEntry s e now).moodHistory[i]? = s.moodHistory[i]?) ∧
    (handleDismiss s).moodHistory = s.moodHistory ∧
    (initChat s).moodHistory = s.moodHistory ∧
    (sendMessage s msg now r).moodHistory = s.moodHistory ∧
    (navigate s p).moodHistory = s.moodHistory ∧
    ((s.moodHistory.map (fun en => en.date)).Pairwise (fun a b => a ≤ b) →
      (∀ d ∈ s.moodHistory.map (fun en => en.date), d ≤ now) →
      ((addMoodEntry s e now).moodHistory.map (fun en => en.date)).Pairwise
        (fun a b => a ≤ b)) := by
  have happ : (addMoodEntry s e now).moodHistory =
      s.moodHistory ++ [mkMoodEntry e now] := by
    simp only [addMoodEntry]
    split <;> rfl
  refine ⟨happ, ?_, ?_, rfl, ?_, ?_, rfl, ?_⟩
  · rw [happ]
    simp
  · intro i hi
    rw [happ, List.getElem?_append, if_pos hi]
  · simp only [initChat]
    split <;> rfl
  · simp only [sendMessage]
    split
    · rfl
    · cases r <;> rfl
  · intro hsorted hbound
    rw [happ, List.map_append, List.pairwise_append]
    refine ⟨hsorted, by simp, ?_⟩
    intro x hx y hy
    simp only [List.map_cons, List.map_nil, List.mem_singleton] at hy
    subst hy
    exact hbound x hx

/-- C8 witness: appending at clock 9 to a history recorded at time 3
keeps the timestamps non-decreasing. -/
theorem moodHistory_append_only_witness :
    ((addMoodEntry
        { currentPage := .Home, userName := "Alex"
        , moodHistory :=
            [{ id := "3", mood := Mood.Content, emoji := "😌", date := 3
             , source := .Journal, notes := none }]
        , highDistressAlert := false, chatInitialized := false
        , chatHistory := [], isAiTyping := false }
        { mood := Mood.Happy, emoji := "😊", source := .Voice, notes := none }
        9).moodHistory.map (fun en => en.date)).Pairwise (fun a b => a ≤ b) :=
  (moodHistory_append_only
    { currentPage := .Home, userName := "Alex"
    , moodHistory :=
        [{ id := "3", mood := Mood.Content, emoji := "😌", date := 3
         , source := .Journal, notes := none }]
    , highDistressAlert := false, chatInitialized := false
    , chatHistory := [], isAiTyping := false }
    { mood := Mood.Happy, emoji := "😊", source := .Voice, notes := none }
    9 "m" (.ok "t") .Home).2.2.2.2.2.2.2 (by decide) (by decide)

/-- C9: for every non-empty windowed list the counts of the reported
rows sum to the length of the input, every reported mood occurs in the
input (no zero-count rows), and every reported percentage is at most
100 (percentages are naturals, hence at least 0). -/
theorem emotionStats_invariants (data hist : List MoodEntry)
    (hne : data ≠ []) :
    ((emotionStats data hist).map (fun s => s.count)).sum = data.length ∧
    ∀ s ∈ emotionStats data hist,
      s.mood ∈ data.map (fun en => en.mood) ∧ 0 < s.count ∧ s.percentage ≤ 100 := by
  refine ⟨emotionStats_sum data hist, ?_⟩
  intro s hs
  obtain ⟨h1, h2, h3, _⟩ := emotionStats_mem data hist s hs
  have hlen : 0 < data.length := by
    cases data with
    | nil => exact absurd rfl hne
    | cons a l => simp
  refine ⟨countMood_pos_mem _ _ (h1 ▸ h2), h2, ?_⟩
  rw [h3]
  exact roundPct_le_100 _ _ (by rw [h1]; exact countMood_le_length s.mood data) hlen

/-- C9 witness: the counts of the single-row output over a one-entry
list sum to 1. -/
theorem emotionStats_invariants_witness :
    ((emotionStats
        [{ id := "w1", mood := Mood.Tired, emoji := "😴", date := 0
         , source := .Voice, notes := none }]
        [{ id := "w1", mood := Mood.Tired, emoji := "😴", date := 0
         , source := .Voice, notes := none }]).map (fun s => s.count)).sum =
      ([{ id := "w1", mood := Mood.Tired, emoji := "😴", date := 0
        , source := .Voice, notes := none }] : List MoodEntry).length :=
  (emotionStats_invariants
    [{ id := "w1", mood := Mood.Tired, emoji := "😴", date := 0
     , source := .Voice, notes := none }]
    [{ id := "w1", mood := Mood.Tired, emoji := "😴", date := 0
     , source := .Voice, notes := none }] (by decide)).1

/-- C10: when the chat session was never initialized, `sendMessage` is a
complete no-op for every message and every remote outcome: the state is
returned unchanged, so no user or assistant message is appended and the
typing flag is untouched. -/
theorem sendMessage_uninitialized_noop (s : AppState) (msg : String)
    (now : Nat) (remote : Except RemoteFailure String)
    (h : s.chatInitialized = false) :
    sendMessage s msg now remote = s ∧
    (sendMessage s msg now remote).chatHistory = s.chatHistory ∧
    (sendMessage s msg now remote).isAiTyping = s.isAiTyping := by
  have hs : sendMessage s msg now remote = s := by
    simp [sendMessage, h]
  exact ⟨hs, by rw [hs], by rw [hs]⟩

/-- C10 witness: a concrete uninitialized state is returned unchanged
even on a successful remote reply. -/
theorem sendMessage_uninitialized_noop_witness :
    sendMessage
        { currentPage := .SupportChat, userName := "Alex", moodHistory := []
        , highDistressAlert := false, chatInitialized := false
        , chatHistory := [], isAiTyping := false } "hello" 3 (.ok "hi") =
      { currentPage := .SupportChat, userName := "Alex", moodHistory := []
      , highDistressAlert := false, chatInitialized := false
      , chatHistory := [], isAiTyping := false } :=
  (sendMessage_uninitialized_noop
    { currentPage := .SupportChat, userName := "Alex", moodHistory := []
    , highDistressAlert := false, chatInitialized := false
    , chatHistory := [], isAiTyping := false } "hello" 3 (.ok "hi") rfl).1

end MindWell
